import Mathlib

/-!
Verification development for the spotify-mcp-server repository.

The credential-lifecycle core (`src/utils.ts`: `createSpotifyApi`,
`refreshAccessToken`, `authorizeSpotify`, `loadSpotifyConfig`,
`saveSpotifyConfig`) is embedded below.  The refresh-check and
refresh-update logic follows the code excerpts preserved in
`TOKEN_REFRESH_FIX.md`; the branches those excerpts elide (the
not-bootstrapped path and the error taxonomy) are modelled from the
specification, as marked on each definition.
The tool catalog glue (`src/albums.ts`, `src/index.ts`) is embedded
directly from its source.
-/

/-- The persisted credential record (`SpotifyConfig` interface in
`src/utils.ts`, shown in TOKEN_REFRESH_FIX.md lines 39-47).  Timestamps
are epoch milliseconds. -/
structure SpotifyConfig where
  clientId : String
  clientSecret : String
  redirectUri : String
  accessToken : Option String
  refreshToken : Option String
  expiresAt : Option Nat
deriving Repr, DecidableEq

/-- Error taxonomy of the credential core (spec section 7). -/
inductive CredError where
  | ConfigMissing
  | NotBootstrapped
  | AuthExpired
  | NetworkError
  | PersistenceError
  | AuthorizationFailed
deriving Repr, DecidableEq

/-- A raw response of the remote token endpoint for a
`grant_type=refresh_token` exchange: JSON body with `access_token`,
`expires_in` (seconds) and optionally a rotated `refresh_token`
(spec section 6). -/
structure TokenEndpointResponse where
  access_token : String
  expires_in : Nat
  refresh_token : Option String
deriving Repr, DecidableEq

/-- The value `refreshAccessToken` resolves with: per its return type in
TOKEN_REFRESH_FIX.md lines 53-55 it carries only `access_token` and
`expires_in` — an endpoint-supplied rotated refresh token is not part of
the return value. -/
structure RefreshedTokens where
  access_token : String
  expires_in : Nat
deriving Repr, DecidableEq

/-- `refreshAccessToken` (TOKEN_REFRESH_FIX.md lines 53-58): exchanges the
refresh token at the endpoint; its successful result exposes exactly
`access_token` and `expires_in`, dropping any rotated `refresh_token`
the endpoint may have supplied. -/
def refreshAccessToken (resp : TokenEndpointResponse) : RefreshedTokens :=
  { access_token := resp.access_token, expires_in := resp.expires_in }

/-- JavaScript falsiness of the optional `expiresAt` number: `undefined`
and `0` are falsy. -/
def jsFalsy : Option Nat → Bool
  | none => true
  | some t => t == 0

/-- The expiry check of `createSpotifyApi`
(TOKEN_REFRESH_FIX.md line 75): shouldRefresh is
`!config.expiresAt || config.expiresAt <= now`. -/
def shouldRefresh (config : SpotifyConfig) (now : Nat) : Bool :=
  jsFalsy config.expiresAt || decide (config.expiresAt.getD 0 ≤ now)

/-- The refresh-update block of `createSpotifyApi`
(TOKEN_REFRESH_FIX.md lines 80-81): `config.accessToken =
tokens.access_token; config.expiresAt = now + tokens.expires_in * 1000`.
No other field is written. -/
def applyRefresh (config : SpotifyConfig) (now : Nat)
    (tokens : RefreshedTokens) : SpotifyConfig :=
  { config with
    accessToken := some tokens.access_token
    expiresAt := some (now + tokens.expires_in * 1000) }

/-- Outcome of the remote token endpoint when the Refresher calls it:
success with a response body, rejection (refresh token invalid/revoked),
or a transport failure (spec section 4.2). -/
inductive RefreshOutcome where
  | success (resp : TokenEndpointResponse)
  | rejected
  | networkError
deriving Repr, DecidableEq

/-- Observable outcome of one `getValidCredential` call: the value or
error it resolves with, the persisted store state afterwards, and how
many refresh network calls were made. -/
structure CredResult where
  result : Except CredError String
  store : SpotifyConfig
  refreshCalls : Nat
deriving Repr

/-- Modelled from the spec: `createSpotifyApi` / `getValidCredential`
(`src/utils.ts`, absent from the tree).  The expiry predicate and the
success update follow the code excerpt in TOKEN_REFRESH_FIX.md lines
70-86 exactly; the not-bootstrapped branch (spec section 4.3 step 2) and
the mapping of refresh failures to `AuthExpired` / `NetworkError` with
the store left untouched (spec sections 4.3 step 5 and 7) are modelled
from the specification because the excerpt elides them.  Guard caveat:
the excerpt enters the refresh path under
`if (config.accessToken && config.refreshToken)` (line 73, both tokens
present) and its else branch is elided, while spec section 4.3 step 2
fails only when both tokens are absent and otherwise proceeds to the
expiry check.  This model follows the spec for the elided
exactly-one-token records, so on that domain it refreshes where the
excerpt skips the refresh block; on both-present and both-absent
records, excerpt and spec agree and so does this model.  `store` is the
record `Store.load()` returns, `now` is `Date.now()`, and `endpoint` is
what the token endpoint would answer if called. -/
def getValidCredential (store : SpotifyConfig) (now : Nat)
    (endpoint : RefreshOutcome) : CredResult :=
  let config := store
  if config.accessToken = none ∧ config.refreshToken = none then
    { result := .error .NotBootstrapped, store := store, refreshCalls := 0 }
  else if shouldRefresh config now then
    match endpoint with
    | .success resp =>
      let tokens := refreshAccessToken resp
      let config' := applyRefresh config now tokens
      { result := .ok tokens.access_token, store := config', refreshCalls := 1 }
    | .rejected =>
      { result := .error .AuthExpired, store := store, refreshCalls := 1 }
    | .networkError =>
      { result := .error .NetworkError, store := store, refreshCalls := 1 }
  else
    { result := .ok (config.accessToken.getD ""), store := store,
      refreshCalls := 0 }

/-- A raw response of the remote token endpoint for a
`grant_type=authorization_code` exchange: `access_token`,
`refresh_token`, and an `expires_in` field the endpoint may omit
(TOKEN_REFRESH_FIX.md lines 99-103 default it to 3600). -/
structure AuthCodeResponse where
  access_token : String
  refresh_token : String
  expires_in : Option Nat
deriving Repr, DecidableEq

/-- Value returned by `exchangeCodeForToken`
(TOKEN_REFRESH_FIX.md lines 99-103). -/
structure ExchangedTokens where
  access_token : String
  refresh_token : String
  expires_in : Nat
deriving Repr, DecidableEq

/-- `exchangeCodeForToken` result mapping
(TOKEN_REFRESH_FIX.md lines 99-103): `expires_in` defaults to 3600 when
the endpoint omits it.  The source writes `data.expires_in || 3600`,
which would also coerce a literal `expires_in` of 0 to 3600; this model
uses `getD`, which keeps 0, diverging only on that degenerate
response. -/
def exchangeCodeForToken (resp : AuthCodeResponse) : ExchangedTokens :=
  { access_token := resp.access_token
    refresh_token := resp.refresh_token
    expires_in := resp.expires_in.getD 3600 }

/-- Outcome of the token endpoint during bootstrap: a successful
authorization-code exchange, or any endpoint error. -/
inductive AuthCodeOutcome where
  | success (resp : AuthCodeResponse)
  | failure
deriving Repr, DecidableEq

/-- Observable outcome of one `authorizeSpotify` run: success or error,
and the persisted store state afterwards. -/
structure AuthResult where
  result : Except CredError Unit
  store : SpotifyConfig
deriving Repr

/-- Modelled from the spec: `authorizeSpotify` (`src/utils.ts`, absent
from the tree).  The success path writes `accessToken`,
`refreshToken` and `expiresAt = Date.now() + tokens.expires_in * 1000`
and saves, exactly as the excerpt in TOKEN_REFRESH_FIX.md lines 110-113;
the failure path (`AuthorizationFailed`, store untouched) is modelled
from spec section 4.4 because the excerpt elides it. -/
def authorizeSpotify (store : SpotifyConfig) (now : Nat)
    (endpoint : AuthCodeOutcome) : AuthResult :=
  match endpoint with
  | .success resp =>
    let tokens := exchangeCodeForToken resp
    let config := { store with
      accessToken := some tokens.access_token
      refreshToken := some tokens.refresh_token
      expiresAt := some (now + tokens.expires_in * 1000) }
    { result := .ok (), store := config }
  | .failure =>
    { result := .error .AuthorizationFailed, store := store }

/-- Phase of one suspendable `getValidCredential` call in the
cooperative-concurrency model of spec section 5: it is about to run its
synchronous prefix, or suspended awaiting the refresh network call
(remembering the record it loaded), or finished with a result. -/
inductive CallerPhase where
  | ready
  | awaiting (config : SpotifyConfig) (tokens : RefreshedTokens)
  | done (result : Except CredError String)
deriving Repr

/-- Shared state of two in-process concurrent `getValidCredential`
calls: the persisted store, the phase of each caller, and the total number
of refresh network calls made so far. -/
structure ConcState where
  store : SpotifyConfig
  caller1 : CallerPhase
  caller2 : CallerPhase
  refreshCalls : Nat
deriving Repr

/-- Modelled from the spec: the synchronous prefix of one
`getValidCredential` call (load, bootstrap check, expiry check, and —
when expired — issuing the refresh network call before suspending on
its await).  The refresh path of the `createSpotifyApi` excerpt
(TOKEN_REFRESH_FIX.md lines 70-86) has no shared in-flight coordination
point: each call issues its own `refreshAccessToken` network call.
The bootstrap guard carries the same caveat as `getValidCredential`:
the excerpt guards the refresh path with both tokens present and elides
the else branch, so the elided exactly-one-token records follow spec
section 4.3 here; every record the concurrency theorems quantify over
has both tokens present, where excerpt and spec agree.
Returns the next phase of the caller and the refresh calls issued (0 or 1). -/
def syncPrefix (store : SpotifyConfig) (now : Nat)
    (resp : TokenEndpointResponse) : CallerPhase × Nat :=
  if store.accessToken = none ∧ store.refreshToken = none then
    (.done (.error .NotBootstrapped), 0)
  else if shouldRefresh store now then
    (.awaiting store (refreshAccessToken resp), 1)
  else
    (.done (.ok (store.accessToken.getD "")), 0)

/-- Modelled from the spec: one atomic step of the chosen caller in the
cooperative interleaving of spec section 5.  A `ready` caller runs its
synchronous prefix against the current store; for an `awaiting` caller
the network call resolves, whereupon it applies the refresh update to
the record it loaded and saves it to the store; a finished caller
idles.  `who = false` steps caller 1 and `who = true` steps caller 2. -/
def stepCaller (s : ConcState) (who : Bool) (now : Nat)
    (resp : TokenEndpointResponse) : ConcState :=
  match (if who then s.caller2 else s.caller1) with
  | .ready =>
    let p := syncPrefix s.store now resp
    if who then
      { s with caller2 := p.1, refreshCalls := s.refreshCalls + p.2 }
    else
      { s with caller1 := p.1, refreshCalls := s.refreshCalls + p.2 }
  | .awaiting config tokens =>
    let store' := applyRefresh config now tokens
    let p := CallerPhase.done (.ok tokens.access_token)
    if who then { s with store := store', caller2 := p }
    else { s with store := store', caller1 := p }
  | .done _ => s

/-- Run a schedule (list of caller choices) of atomic steps; the refresh
of caller 1, if any, resolves with `r1` and that of caller 2 with `r2`. -/
def runSchedule (s : ConcState) (sched : List Bool) (now : Nat)
    (r1 r2 : TokenEndpointResponse) : ConcState :=
  sched.foldl (fun st who => stepCaller st who now (if who then r2 else r1)) s

/-- Initial concurrent state: both callers ready, no refresh calls yet. -/
def initConc (store : SpotifyConfig) : ConcState :=
  { store := store, caller1 := .ready, caller2 := .ready, refreshCalls := 0 }

/-- The album fields the handlers in `src/albums.ts` read. -/
structure Album where
  name : String
  artists : List String
  release_date : String
  total_tracks : Nat
  id : String
deriving Repr, DecidableEq

/-- Observable outcome of one tool handler call: the text of its single
content block and the number of `handleSpotifyRequest` invocations
(Spotify API requests) it made. -/
structure HandlerResult where
  text : String
  apiCalls : Nat
deriving Repr, DecidableEq

/-- Line formatting of `getMultipleAlbums` (`src/albums.ts`): a missing
entry renders as not-found, otherwise name, artists, release date,
track count and id. -/
def formatAlbumLine (i : Nat) (album : Option Album) : String :=
  match album with
  | none => toString (i + 1) ++ ". [Album not found]"
  | some album =>
    let artists := String.intercalate ", " album.artists
    toString (i + 1) ++ ". \"" ++ album.name ++ "\" by " ++ artists ++
      " (" ++ album.release_date ++ ") - " ++
      toString album.total_tracks ++ " tracks - ID: " ++ album.id

/-- `getMultipleAlbums` handler (`src/albums.ts`): an empty `albumIds`
array short-circuits to an error text before the try block; otherwise
one `handleSpotifyRequest` call is made and its result (`api`) is
formatted, with a thrown error caught into an error text. -/
def getMultipleAlbums (albumIds : List String)
    (api : Except String (List (Option Album))) : HandlerResult :=
  if albumIds.length = 0 then
    { text := "Error: No album IDs provided", apiCalls := 0 }
  else
    match api with
    | .error e =>
      { text := "Error getting albums: " ++ e, apiCalls := 1 }
    | .ok albums =>
      if albums.length = 0 then
        { text := "No albums found for the provided IDs", apiCalls := 1 }
      else
        let formatted := String.intercalate "\n"
          (albums.enum.map (fun p => formatAlbumLine p.1 p.2))
        { text := "# Multiple Albums\n\n" ++ formatted, apiCalls := 1 }

/-- Pluralization used by the save/remove success messages. -/
def albumPlural (n : Nat) : String :=
  if n = 1 then "" else "s"

/-- `saveAlbumsForUser` handler (`src/albums.ts`): empty `albumIds`
short-circuits to an error text before the try block; otherwise one
`handleSpotifyRequest` call, reporting success or the caught error. -/
def saveAlbumsForUser (albumIds : List String)
    (api : Except String Unit) : HandlerResult :=
  if albumIds.length = 0 then
    { text := "Error: No album IDs provided", apiCalls := 0 }
  else
    match api with
    | .error e =>
      { text := "Error saving albums: " ++ e, apiCalls := 1 }
    | .ok _ =>
      { text := "Successfully saved " ++ toString albumIds.length ++
          " album" ++ albumPlural albumIds.length ++ " to your library",
        apiCalls := 1 }

/-- `removeAlbumsForUser` handler (`src/albums.ts`): empty `albumIds`
short-circuits to an error text before the try block; otherwise one
`handleSpotifyRequest` call, reporting success or the caught error. -/
def removeAlbumsForUser (albumIds : List String)
    (api : Except String Unit) : HandlerResult :=
  if albumIds.length = 0 then
    { text := "Error: No album IDs provided", apiCalls := 0 }
  else
    match api with
    | .error e =>
      { text := "Error removing albums: " ++ e, apiCalls := 1 }
    | .ok _ =>
      { text := "Successfully removed " ++ toString albumIds.length ++
          " album" ++ albumPlural albumIds.length ++ " from your library",
        apiCalls := 1 }

/-- Line formatting of `checkUsersSavedAlbums` (`src/albums.ts`); an
out-of-range status index reads as falsy, hence not saved. -/
def formatSavedLine (savedStatus : List Bool) (i : Nat)
    (albumId : String) : String :=
  let isSaved := savedStatus.getD i false
  toString (i + 1) ++ ". " ++ albumId ++ ": " ++
    (if isSaved then "Saved" else "Not saved")

/-- `checkUsersSavedAlbums` handler (`src/albums.ts`): empty `albumIds`
short-circuits to an error text before the try block; otherwise one
`handleSpotifyRequest` call whose boolean array is zipped against the
ids, with a thrown error caught into an error text. -/
def checkUsersSavedAlbums (albumIds : List String)
    (api : Except String (List Bool)) : HandlerResult :=
  if albumIds.length = 0 then
    { text := "Error: No album IDs provided", apiCalls := 0 }
  else
    match api with
    | .error e =>
      { text := "Error checking saved albums: " ++ e, apiCalls := 1 }
    | .ok savedStatus =>
      let formatted := String.intercalate "\n"
        (albumIds.enum.map (fun p => formatSavedLine savedStatus p.1 p.2))
      { text := "# Album Save Status\n\n" ++ formatted, apiCalls := 1 }

/-- Behaviour of the handler of a registered tool on the current
arguments: either it resolves with content texts, or it throws. -/
inductive HandlerOutcome where
  | ok (content : List String)
  | throws (msg : String)
deriving Repr, DecidableEq

/-- A catalog entry as the dispatcher sees it: a tool name and what its
handler does on this request. -/
structure ToolEntry where
  name : String
  outcome : HandlerOutcome
deriving Repr, DecidableEq

/-- Result of the CallTool request handler in `src/index.ts`: either an
exception propagates out of the handler function, or it returns a
content result (with `isError` true exactly when set by the catch
block; the success return carries no `isError` field, i.e. false). -/
inductive DispatchResult where
  | thrown (msg : String)
  | result (content : List String) (isError : Bool)
deriving Repr, DecidableEq

/-- The CallTool request handler (`src/index.ts` lines 125-160): look
the tool up by name; an unknown name throws `Tool not found: <name>`
outside the try block; the handler of a known tool runs inside the try
block, its thrown errors caught and converted to a text content result
with `isError := true`. -/
def callToolHandler (tools : List ToolEntry) (name : String) :
    DispatchResult :=
  match tools.find? (fun t => t.name == name) with
  | none => .thrown ("Tool not found: " ++ name)
  | some tool =>
    match tool.outcome with
    | .ok content => .result content false
    | .throws msg =>
      .result ["Error executing tool \"" ++ name ++ "\": " ++ msg] true

-- Helper lemmas about the expiry predicate, shared by several theorems.

lemma shouldRefresh_of_expired {c : SpotifyConfig} {now : Nat}
    (h : c.expiresAt = none ∨ ∃ t, c.expiresAt = some t ∧ t ≤ now) :
    shouldRefresh c now = true := by
  rcases h with h | ⟨t, h, hle⟩
  · simp [shouldRefresh, jsFalsy, h]
  · simp [shouldRefresh, jsFalsy, h]
    omega

lemma shouldRefresh_of_future {c : SpotifyConfig} {t now : Nat}
    (h : c.expiresAt = some t) (hf : now < t) :
    shouldRefresh c now = false := by
  simp [shouldRefresh, jsFalsy, h]
  omega

-- A sample token-endpoint refresh response used in concrete instances.

def sampleResp : TokenEndpointResponse :=
  { access_token := "A2", expires_in := 3600, refresh_token := none }

-- A sample bootstrapped, expired record used in concrete instances.

def sampleExpired : SpotifyConfig :=
  { clientId := "id", clientSecret := "secret", redirectUri := "uri"
    accessToken := some "A1", refreshToken := some "R1"
    expiresAt := some 1000 }

/-- C1: for every credential record whose `expiresAt` is present and
strictly in the future (and whose cached `accessToken` exists),
`getValidCredential` returns the cached access token unchanged, makes no
refresh network call and leaves the store untouched; and the expiry
predicate is exactly `expiresAt` absent or `now >= expiresAt`. -/
theorem c1_fresh_token_no_refresh (c : SpotifyConfig) (now t : Nat)
    (a : String) (ep : RefreshOutcome)
    (hexp : c.expiresAt = some t) (hfut : now < t)
    (ha : c.accessToken = some a) :
    (getValidCredential c now ep).result = .ok a ∧
    (getValidCredential c now ep).refreshCalls = 0 ∧
    (getValidCredential c now ep).store = c ∧
    (∀ (d : SpotifyConfig) (m : Nat),
      shouldRefresh d m = true ↔
        (d.expiresAt = none ∨ ∃ u, d.expiresAt = some u ∧ u ≤ m)) := by
  have hsr := shouldRefresh_of_future hexp hfut
  refine ⟨?_, ?_, ?_, ?_⟩
  · simp [getValidCredential, ha, hsr]
  · simp [getValidCredential, ha, hsr]
  · simp [getValidCredential, ha, hsr]
  · intro d m
    cases hd : d.expiresAt with
    | none => simp [shouldRefresh, jsFalsy, hd]
    | some u =>
      simp [shouldRefresh, jsFalsy, hd]
      omega

/-- Witness for C1 at a concrete record whose token expires in the
future. -/
theorem c1_witness :
    (getValidCredential
      { clientId := "id", clientSecret := "secret", redirectUri := "uri"
        accessToken := some "A1", refreshToken := some "R1"
        expiresAt := some 5000 } 1000 (.success sampleResp)).result =
      .ok "A1" ∧
    (getValidCredential
      { clientId := "id", clientSecret := "secret", redirectUri := "uri"
        accessToken := some "A1", refreshToken := some "R1"
        expiresAt := some 5000 } 1000 (.success sampleResp)).refreshCalls =
      0 ∧
    (shouldRefresh
      { clientId := "id", clientSecret := "secret", redirectUri := "uri"
        accessToken := some "A1", refreshToken := some "R1"
        expiresAt := some 5000 } 1000 = true ↔
      ((some 5000 : Option Nat) = none ∨
        ∃ u, (some 5000 : Option Nat) = some u ∧ u ≤ 1000)) := by
  obtain ⟨h1, h2, _, h4⟩ :=
    c1_fresh_token_no_refresh
      { clientId := "id", clientSecret := "secret", redirectUri := "uri"
        accessToken := some "A1", refreshToken := some "R1"
        expiresAt := some 5000 } 1000 5000 "A1" (.success sampleResp)
      rfl (by omega) rfl
  exact ⟨h1, h2, h4 _ 1000⟩

/-- Counterexample to C2 as stated: the record with both tokens absent
and `expiresAt` absent satisfies "expiresAt is absent or not in the
future", yet `getValidCredential` makes no refresh call and fails with
`NotBootstrapped` instead of persisting and returning a new token. -/
theorem c2_counterexample :
    (getValidCredential
      { clientId := "id", clientSecret := "secret", redirectUri := "uri"
        accessToken := none, refreshToken := none, expiresAt := none }
      1000 (.success sampleResp)).refreshCalls = 0 ∧
    (getValidCredential
      { clientId := "id", clientSecret := "secret", redirectUri := "uri"
        accessToken := none, refreshToken := none, expiresAt := none }
      1000 (.success sampleResp)).result = .error .NotBootstrapped :=
  ⟨rfl, rfl⟩

/-- C2 (amended): for every credential record with both `accessToken`
and `refreshToken` present — the records that pass the refresh-path
guard `if (config.accessToken && config.refreshToken)` — whose
`expiresAt` is absent or not in the future, `getValidCredential`
invokes the Refresher exactly once, and when the refresh succeeds it
persists the updated record via the Store and returns the new access
token. -/
theorem c2_expired_refreshes_once (c : SpotifyConfig) (now : Nat)
    (ep : RefreshOutcome) (a b : String)
    (ha : c.accessToken = some a) (hb : c.refreshToken = some b)
    (hexp : c.expiresAt = none ∨ ∃ t, c.expiresAt = some t ∧ t ≤ now) :
    (getValidCredential c now ep).refreshCalls = 1 ∧
    ∀ resp, ep = .success resp →
      (getValidCredential c now ep).store =
        applyRefresh c now (refreshAccessToken resp) ∧
      (getValidCredential c now ep).result = .ok resp.access_token := by
  have hsr := shouldRefresh_of_expired hexp
  constructor
  · cases ep <;> simp [getValidCredential, ha, hb, hsr]
  · intro resp hep
    subst hep
    simp [getValidCredential, ha, hb, hsr, refreshAccessToken]

/-- Witness for C2 at a concrete expired record with both tokens
present and a successful refresh. -/
theorem c2_witness :
    (getValidCredential sampleExpired 2000
      (.success sampleResp)).refreshCalls = 1 ∧
    (getValidCredential sampleExpired 2000 (.success sampleResp)).store =
      applyRefresh sampleExpired 2000 (refreshAccessToken sampleResp) ∧
    (getValidCredential sampleExpired 2000 (.success sampleResp)).result =
      .ok "A2" := by
  obtain ⟨h1, h2⟩ :=
    c2_expired_refreshes_once sampleExpired 2000 (.success sampleResp)
      "A1" "R1" rfl rfl (Or.inr ⟨1000, rfl, by omega⟩)
  exact ⟨h1, (h2 sampleResp rfl).1, (h2 sampleResp rfl).2⟩

/-- C3: after a successful refresh, the persisted record holds the
access token returned by the refresher and `expiresAt = now +
expiresInSeconds * 1000`, with `now` the time observed during the
refresh (exact equality, hence within any tolerance). -/
theorem c3_store_roundtrip (c : SpotifyConfig) (now : Nat)
    (resp : TokenEndpointResponse)
    (hboot : ¬(c.accessToken = none ∧ c.refreshToken = none))
    (hexp : c.expiresAt = none ∨ ∃ t, c.expiresAt = some t ∧ t ≤ now) :
    (getValidCredential c now (.success resp)).store.accessToken =
      some resp.access_token ∧
    (getValidCredential c now (.success resp)).store.expiresAt =
      some (now + resp.expires_in * 1000) := by
  have hsr := shouldRefresh_of_expired hexp
  constructor <;>
    simp [getValidCredential, hboot, hsr, refreshAccessToken, applyRefresh]

/-- Witness for C3 at a concrete expired record and refresh response. -/
theorem c3_witness :
    (getValidCredential sampleExpired 2000
      (.success sampleResp)).store.accessToken = some "A2" ∧
    (getValidCredential sampleExpired 2000
      (.success sampleResp)).store.expiresAt = some 3602000 :=
  c3_store_roundtrip sampleExpired 2000 sampleResp
    (by simp [sampleExpired]) (Or.inr ⟨1000, rfl, by omega⟩)

/-- Counterexample to C4 as stated: the token endpoint rotates the
refresh token to `NEW`, yet after the refresh the persisted
`refreshToken` still holds the old value `R1`, not `NEW`. -/
theorem c4_counterexample :
    (getValidCredential sampleExpired 2000
      (.success { access_token := "A2", expires_in := 3600,
                  refresh_token := some "NEW" })).store.refreshToken =
      some "R1" ∧
    (getValidCredential sampleExpired 2000
      (.success { access_token := "A2", expires_in := 3600,
                  refresh_token := some "NEW" })).store.refreshToken ≠
      some "NEW" :=
  ⟨rfl, by decide⟩

/-- C4 (amended): the persisted `refreshToken` is retained unchanged by
every `getValidCredential` call, whether or not the endpoint supplied a
rotated refresh token: `refreshAccessToken` returns only `access_token`
and `expires_in`, and the refresh update writes only `accessToken` and
`expiresAt`. -/
theorem c4_refresh_token_retained (c : SpotifyConfig) (now : Nat)
    (ep : RefreshOutcome) :
    (getValidCredential c now ep).store.refreshToken = c.refreshToken := by
  cases ep <;>
    simp only [getValidCredential, applyRefresh, refreshAccessToken] <;>
    split <;> simp_all <;> split <;> simp_all

/-- C5: when the token endpoint rejects the refresh (refresh token
invalid/revoked), `getValidCredential` fails with `AuthExpired`, makes
exactly one refresh attempt (no automatic retry), and leaves the store —
including its previous `accessToken` and `refreshToken` — untouched. -/
theorem c5_rejected_auth_expired (c : SpotifyConfig) (now : Nat)
    (hboot : ¬(c.accessToken = none ∧ c.refreshToken = none))
    (hexp : c.expiresAt = none ∨ ∃ t, c.expiresAt = some t ∧ t ≤ now) :
    (getValidCredential c now .rejected).result = .error .AuthExpired ∧
    (getValidCredential c now .rejected).store = c ∧
    (getValidCredential c now .rejected).refreshCalls = 1 := by
  have hsr := shouldRefresh_of_expired hexp
  refine ⟨?_, ?_, ?_⟩ <;> simp [getValidCredential, hboot, hsr]

/-- Witness for C5 at a concrete expired record. -/
theorem c5_witness :
    (getValidCredential sampleExpired 2000 .rejected).result =
      .error .AuthExpired ∧
    (getValidCredential sampleExpired 2000 .rejected).store =
      sampleExpired ∧
    (getValidCredential sampleExpired 2000 .rejected).refreshCalls = 1 :=
  c5_rejected_auth_expired sampleExpired 2000
    (by simp [sampleExpired]) (Or.inr ⟨1000, rfl, by omega⟩)

-- A second sample refresh response, for the second concurrent caller.

def sampleResp2 : TokenEndpointResponse :=
  { access_token := "A3", expires_in := 3600, refresh_token := none }

/-- Counterexample to C6 as stated: under the interleaving in which both
callers run their expiry check before either refresh resolves, two
refresh network calls are made — not at most one. -/
theorem c6_counterexample :
    (runSchedule (initConc sampleExpired) [false, true, false, true] 2000
      sampleResp sampleResp2).refreshCalls = 2 := by
  decide

/-- C6 (amended): the refresh path has no shared in-flight coordination
point, so two concurrent `getValidCredential` calls that both observe
the expired record before either refresh completes each make their own
refresh network call — two in total — and each resolves to its own
access token of its own refresh response; the save of the second caller
overwrites that of the first in the store. -/
theorem c6_interleaved_double_refresh (c : SpotifyConfig) (now : Nat)
    (r1 r2 : TokenEndpointResponse)
    (hboot : ¬(c.accessToken = none ∧ c.refreshToken = none))
    (hexp : c.expiresAt = none ∨ ∃ t, c.expiresAt = some t ∧ t ≤ now) :
    (runSchedule (initConc c) [false, true, false, true] now
      r1 r2).refreshCalls = 2 ∧
    (runSchedule (initConc c) [false, true, false, true] now
      r1 r2).caller1 = .done (.ok r1.access_token) ∧
    (runSchedule (initConc c) [false, true, false, true] now
      r1 r2).caller2 = .done (.ok r2.access_token) ∧
    (runSchedule (initConc c) [false, true, false, true] now
      r1 r2).store = applyRefresh c now (refreshAccessToken r2) := by
  have hsr := shouldRefresh_of_expired hexp
  refine ⟨?_, ?_, ?_, ?_⟩ <;>
    simp [runSchedule, initConc, stepCaller, syncPrefix, hboot, hsr,
      refreshAccessToken]

/-- Witness for C6 at a concrete expired record and two concrete refresh
responses. -/
theorem c6_witness :
    (runSchedule (initConc sampleExpired) [false, true, false, true] 2000
      sampleResp sampleResp2).caller1 = .done (.ok "A2") ∧
    (runSchedule (initConc sampleExpired) [false, true, false, true] 2000
      sampleResp sampleResp2).caller2 = .done (.ok "A3") ∧
    (runSchedule (initConc sampleExpired) [false, true, false, true] 2000
      sampleResp sampleResp2).store =
      applyRefresh sampleExpired 2000 (refreshAccessToken sampleResp2) := by
  obtain ⟨_, h2, h3, h4⟩ :=
    c6_interleaved_double_refresh sampleExpired 2000 sampleResp sampleResp2
      (by simp [sampleExpired]) (Or.inr ⟨1000, rfl, by omega⟩)
  exact ⟨h2, h3, h4⟩

/-- C7: a successful bootstrap writes a fresh record — `accessToken`,
`refreshToken`, and `expiresAt = now + expiresInSeconds * 1000`
(seconds defaulting to 3600 when the endpoint omits them) — fully
replacing any prior token state; any endpoint error fails with
`AuthorizationFailed` with the store untouched. -/
theorem c7_bootstrap (store : SpotifyConfig) (now : Nat)
    (resp : AuthCodeResponse) :
    (authorizeSpotify store now (.success resp)).result = .ok () ∧
    (authorizeSpotify store now (.success resp)).store.accessToken =
      some resp.access_token ∧
    (authorizeSpotify store now (.success resp)).store.refreshToken =
      some resp.refresh_token ∧
    (authorizeSpotify store now (.success resp)).store.expiresAt =
      some (now + resp.expires_in.getD 3600 * 1000) ∧
    (authorizeSpotify store now .failure).result =
      .error .AuthorizationFailed ∧
    (authorizeSpotify store now .failure).store = store :=
  ⟨rfl, rfl, rfl, rfl, rfl, rfl⟩

/-- C8: a record with both `accessToken` and `refreshToken` absent makes
`getValidCredential` fail with `NotBootstrapped`, with no refresh call
and the store unmutated. -/
theorem c8_not_bootstrapped (c : SpotifyConfig) (now : Nat)
    (ep : RefreshOutcome)
    (ha : c.accessToken = none) (hr : c.refreshToken = none) :
    (getValidCredential c now ep).result = .error .NotBootstrapped ∧
    (getValidCredential c now ep).refreshCalls = 0 ∧
    (getValidCredential c now ep).store = c := by
  refine ⟨?_, ?_, ?_⟩ <;> simp [getValidCredential, ha, hr]

/-- Witness for C8 at a concrete tokenless record. -/
theorem c8_witness :
    (getValidCredential
      { clientId := "id", clientSecret := "secret", redirectUri := "uri"
        accessToken := none, refreshToken := none, expiresAt := some 5000 }
      1000 .networkError).result = .error .NotBootstrapped ∧
    (getValidCredential
      { clientId := "id", clientSecret := "secret", redirectUri := "uri"
        accessToken := none, refreshToken := none, expiresAt := some 5000 }
      1000 .networkError).refreshCalls = 0 ∧
    (getValidCredential
      { clientId := "id", clientSecret := "secret", redirectUri := "uri"
        accessToken := none, refreshToken := none, expiresAt := some 5000 }
      1000 .networkError).store =
      { clientId := "id", clientSecret := "secret", redirectUri := "uri"
        accessToken := none, refreshToken := none, expiresAt := some 5000 } :=
  c8_not_bootstrapped
    { clientId := "id", clientSecret := "secret", redirectUri := "uri"
      accessToken := none, refreshToken := none, expiresAt := some 5000 }
    1000 .networkError rfl rfl

/-- C9: each of the four album tools taking an `albumIds` array —
`getMultipleAlbums`, `saveAlbumsForUser`, `removeAlbumsForUser`,
`checkUsersSavedAlbums` — answers the empty array with the text
`Error: No album IDs provided` and makes no Spotify API request,
whatever the API would have answered. -/
theorem c9_empty_album_ids (a1 : Except String (List (Option Album)))
    (a2 a3 : Except String Unit) (a4 : Except String (List Bool)) :
    getMultipleAlbums [] a1 =
      { text := "Error: No album IDs provided", apiCalls := 0 } ∧
    saveAlbumsForUser [] a2 =
      { text := "Error: No album IDs provided", apiCalls := 0 } ∧
    removeAlbumsForUser [] a3 =
      { text := "Error: No album IDs provided", apiCalls := 0 } ∧
    checkUsersSavedAlbums [] a4 =
      { text := "Error: No album IDs provided", apiCalls := 0 } :=
  ⟨rfl, rfl, rfl, rfl⟩

/-- C10: a CallTool request naming a tool outside the catalog throws
`Tool not found: <name>` (outside the try block, so it is not converted
to a result), while a registered tool whose handler throws yields a text
content result with `isError` true instead of a propagated exception. -/
theorem c10_dispatch (tools : List ToolEntry) (name : String) :
    (tools.find? (fun t => t.name == name) = none →
      callToolHandler tools name =
        .thrown ("Tool not found: " ++ name)) ∧
    (∀ tool msg, tools.find? (fun t => t.name == name) = some tool →
      tool.outcome = .throws msg →
      callToolHandler tools name =
        .result ["Error executing tool \"" ++ name ++ "\": " ++ msg]
          true) := by
  constructor
  · intro h
    simp [callToolHandler, h]
  · intro tool msg h hm
    simp [callToolHandler, h, hm]

-- A sample catalog for the C10 witness: one well-behaved tool and one
-- whose handler throws on this request.

def sampleCatalog : List ToolEntry :=
  [ { name := "devices", outcome := .ok ["Available devices: ..."] },
    { name := "getAlbum", outcome := .throws "boom" } ]

/-- Witness for C10: an unknown tool name throws, and the registered
tool whose handler throws is converted to an `isError` result. -/
theorem c10_witness :
    callToolHandler sampleCatalog "unknownTool" =
      .thrown "Tool not found: unknownTool" ∧
    callToolHandler sampleCatalog "getAlbum" =
      .result ["Error executing tool \"getAlbum\": boom"] true := by
  refine ⟨(c10_dispatch sampleCatalog "unknownTool").1 (by decide), ?_⟩
  exact (c10_dispatch sampleCatalog "getAlbum").2
    { name := "getAlbum", outcome := .throws "boom" } "boom" (by decide) rfl
